import Mathlib

/-!
Shallow embedding of the money-transfer client
(`src/submissions/JingRonggg`): `validators.py`, `config.py`, `client.py`
and `transfer.py`, together with a model of the parts of the Python
runtime and the `urllib3`/`requests` libraries that the code's observable
behaviour depends on (float comparison and parsing, `urllib3.util.retry.Retry`
as configured by `create_session_with_retries`, `requests` exception
classification).  Theorems settle the frozen claims about this code.
-/

namespace JBTransfer

/-! ## Python float model

`amount` travels through the code as a Python `float`.  The claims depend on
the comparison `amount <= 0` (validators.py line 16), on `float(...)` parsing
(validators.py `parse_amount`, config.py `from_environment`), and on the
existence of the non-finite values `nan`/`inf`.  Finite values are modelled
as exact rationals; binary rounding is irrelevant to every claim. -/

inductive PyFloat : Type where
  | finite (q : ℚ) : PyFloat
  | nan : PyFloat
  | inf : PyFloat
  | ninf : PyFloat
  deriving DecidableEq, Repr

namespace PyFloat

/-- Python's `x <= 0` on floats: `nan <= 0` is `False`, `inf <= 0` is
`False`, `-inf <= 0` is `True`. -/
def le0 : PyFloat → Bool
  | .finite q => decide (q ≤ 0)
  | .nan => false
  | .inf => false
  | .ninf => true

/-- Python's `x > 0` on floats: false for `nan` and `-inf`, true for `inf`. -/
def gt0 : PyFloat → Bool
  | .finite q => decide (0 < q)
  | .nan => false
  | .inf => true
  | .ninf => false

/-- Python `math.isfinite`. -/
def isFinite : PyFloat → Bool
  | .finite _ => true
  | _ => false

end PyFloat

/-! ## Python numeric-string parsing

Models of the CPython builtins `float(str)` and `int(str)` on the string
forms the claims exercise: surrounding whitespace is stripped, an optional
sign is read, and `float` additionally accepts the case-insensitive special
words `nan`, `inf` and `infinity` as well as decimal notation with an
optional fractional part and exponent.  (Digit-group underscores are not
modelled; no claim uses them.) -/

/-- Python `str.strip()` with no argument: remove leading and trailing
whitespace. -/
def pyStrip (l : List Char) : List Char :=
  ((l.dropWhile Char.isWhitespace).reverse.dropWhile Char.isWhitespace).reverse

/-- Numeric value of a list of decimal digit characters. -/
def digitsVal (l : List Char) : ℕ :=
  l.foldl (fun a c => a * 10 + (c.toNat - 48)) 0

/-- All characters are decimal digits and there is at least one. -/
def isDigitRun (l : List Char) : Bool :=
  !l.isEmpty && l.all (·.isDigit)

/-- Parse an optional leading `+`/`-` sign, returning the sign as `1`/`-1`
and the rest of the characters. -/
def splitSign : List Char → ℤ × List Char
  | '-' :: rest => (-1, rest)
  | '+' :: rest => (1, rest)
  | l => (1, l)

/-- Parse an unsigned decimal mantissa `digits`, `digits.digits`, `.digits`
or `digits.` (CPython requires at least one digit) into an integer
numerator and a power-of-ten denominator. -/
def parseMantissa (l : List Char) : Option (ℤ × ℕ) :=
  match l.splitOn '.' with
  | [intPart] =>
      if isDigitRun intPart then some ((digitsVal intPart : ℤ), 1) else none
  | [intPart, fracPart] =>
      if (intPart.all (·.isDigit)) && (fracPart.all (·.isDigit)) &&
          !(intPart.isEmpty && fracPart.isEmpty) then
        some ((digitsVal (intPart ++ fracPart) : ℤ), 10 ^ fracPart.length)
      else none
  | _ => none

/-- Parse a signed decimal exponent (digits with optional sign). -/
def parseExpoVal (l : List Char) : Option ℤ :=
  let (sign, rest) := splitSign l
  if isDigitRun rest then some (sign * (digitsVal rest : ℤ)) else none

/-- The rational `n / d` scaled by `10 ^ e`. -/
def ratOfParts (n : ℤ) (d : ℕ) (e : ℤ) : ℚ :=
  if 0 ≤ e then Rat.divInt (n * ((10 ^ e.toNat : ℕ) : ℤ)) (d : ℤ)
  else Rat.divInt n ((d * 10 ^ (-e).toNat : ℕ) : ℤ)

/-- Model of CPython `float(s)`: `none` models the `ValueError` raised on a
malformed string. -/
def pyFloatOfString (s : String) : Option PyFloat :=
  let (sign, rest) := splitSign (pyStrip s.toList)
  let lower := rest.map Char.toLower
  if lower = "nan".toList then some .nan
  else if lower = "inf".toList ∨ lower = "infinity".toList then
    some (if sign < 0 then .ninf else .inf)
  else
    match lower.splitOn 'e' with
    | [mant] => (parseMantissa mant).map (fun p => .finite (ratOfParts (sign * p.1) p.2 0))
    | [mant, expo] => do
        let p ← parseMantissa mant
        let e ← parseExpoVal expo
        pure (.finite (ratOfParts (sign * p.1) p.2 e))
    | _ => none

/-- Model of CPython `int(s)` on decimal strings: `none` models the
`ValueError` raised on a malformed string. -/
def pyIntOfString (s : String) : Option ℤ :=
  let (sign, rest) := splitSign (pyStrip s.toList)
  if isDigitRun rest then some (sign * (digitsVal rest : ℤ)) else none

deriving instance DecidableEq for Except

/-! ## validators.py -/

/-- The distinct `ValueError`s `validate_transfer_inputs` and `parse_amount`
can raise, tagged with the spec's taxonomy names; each corresponds to one
`raise ValueError(...)` site in validators.py. -/
inductive ValidationError : Type where
  | invalidAmount : ValidationError
  | emptyAccount : ValidationError
  | sameAccount : ValidationError
  | malformedAmount : ValidationError
  deriving DecidableEq, Repr

/-- Model of `validate_transfer_inputs` (validators.py lines 4–23).  Checks run in
source order: `amount <= 0`, then `not from_acc or not to_acc` (Python
string truthiness: exactly the empty string is falsy), then
`from_acc == to_acc`.  `Except.error` models the raised `ValueError`. -/
def validate_transfer_inputs (from_acc to_acc : String) (amount : PyFloat) :
    Except ValidationError Unit :=
  if amount.le0 then .error .invalidAmount
  else if from_acc = "" ∨ to_acc = "" then .error .emptyAccount
  else if from_acc = to_acc then .error .sameAccount
  else .ok ()

/-- Model of `parse_amount` (validators.py lines 26–42): `float(amount_str)`, with
`ValueError` re-raised as the "Invalid amount" message
(`MalformedAmount` in the spec's taxonomy). -/
def parse_amount (amount_str : String) : Except ValidationError PyFloat :=
  match pyFloatOfString amount_str with
  | some v => .ok v
  | none => .error .malformedAmount

/-! ## config.py -/

/-- The failure of `TransferConfig.from_environment`: the `ValueError` that
`int(...)`/`float(...)` raise on a malformed environment value (the spec's
`InvalidConfig`). -/
inductive ConfigError : Type where
  | invalidConfig : ConfigError
  deriving DecidableEq, Repr

/-- The `TransferConfig` dataclass (config.py lines 7–21) with its declared
defaults. -/
structure TransferConfig : Type where
  api_url : String
  timeout : ℤ := 30
  max_retries : ℤ := 3
  backoff_factor : PyFloat := .finite 1
  deriving DecidableEq, Repr

/-- Model of `TransferConfig.from_environment` (config.py lines 23–36).  The
environment is a key/value source; `os.getenv(k, d)` is `(env k).getD d`.
Keyword arguments are evaluated in source order, so the first malformed
numeric value raises; the raised `ValueError` is the `.error` case. -/
def TransferConfig.from_environment (env : String → Option String) :
    Except ConfigError TransferConfig :=
  match pyIntOfString ((env "TRANSFER_TIMEOUT").getD "30") with
  | none => .error .invalidConfig
  | some timeout =>
    match pyIntOfString ((env "TRANSFER_MAX_RETRIES").getD "3") with
    | none => .error .invalidConfig
    | some max_retries =>
      match pyFloatOfString ((env "TRANSFER_BACKOFF_FACTOR").getD "1.0") with
      | none => .error .invalidConfig
      | some backoff_factor =>
        .ok { api_url := (env "TRANSFER_API_URL").getD "http://localhost:8123",
              timeout := timeout, max_retries := max_retries,
              backoff_factor := backoff_factor }

/-! ## client.py and the urllib3 retry machinery

`create_session_with_retries` (client.py lines 10–42) mounts an
`HTTPAdapter` whose behaviour is entirely determined by the
`urllib3.util.retry.Retry` object it constructs.  The retry semantics are
modelled from urllib3 1.26 (`Retry.is_retry`, `Retry.increment`,
`Retry.is_exhausted`, `Retry.get_backoff_time`, and the retry loop of
`HTTPConnectionPool.urlopen`): `total` counts *retries*, each
status-triggered retry decrements it, exhaustion happens when it drops
below zero, and with `raise_on_status=False` the last response is returned
on exhaustion.  Responses are modelled without a `Retry-After` header. -/

/-- The parameters `create_session_with_retries` passes to `Retry`. -/
structure RetryPolicy : Type where
  total : ℤ
  backoff_factor : PyFloat
  status_forcelist : List ℕ
  allowed_methods : List String
  raise_on_status : Bool
  deriving DecidableEq, Repr

/-- Model of `create_session_with_retries` (client.py lines 10–42), reduced to the
retry policy that governs the session it returns. -/
def create_session_with_retries (config : TransferConfig) : RetryPolicy :=
  { total := config.max_retries
    backoff_factor := config.backoff_factor
    status_forcelist := [429, 500, 502, 503, 504]
    allowed_methods := ["POST"]
    raise_on_status := false }

/-- urllib3 `Retry._is_method_retryable`: the method is in
`allowed_methods`. -/
def RetryPolicy.is_method_retryable (p : RetryPolicy) (method : String) : Bool :=
  p.allowed_methods.contains method

/-- urllib3 `Retry.is_retry` for a response without a `Retry-After` header:
the method is retryable and the status is in the forcelist. -/
def RetryPolicy.is_retry (p : RetryPolicy) (method : String) (status : ℕ) : Bool :=
  p.is_method_retryable method && p.status_forcelist.contains status

/-- Python's `<` on floats (false whenever `nan` is involved). -/
def PyFloat.lt : PyFloat → PyFloat → Bool
  | .finite a, .finite b => decide (a < b)
  | .finite _, .inf => true
  | .ninf, .finite _ => true
  | .ninf, .inf => true
  | _, _ => false

/-- CPython two-argument `min(a, b)`: `b` if `b < a`, else `a`. -/
def pyMin (a b : PyFloat) : PyFloat :=
  if b.lt a then b else a

/-- Multiplication `backoff_factor * (2 ** k)` with an integer power (an exact rational
product, written over `Rat.divInt` so that it evaluates). -/
def PyFloat.mulPow2 : PyFloat → ℕ → PyFloat
  | .finite q, k => .finite (Rat.divInt (q.num * ((2 ^ k : ℕ) : ℤ)) (q.den : ℤ))
  | f, _ => f

/-- urllib3 `Retry.DEFAULT_BACKOFF_MAX`. -/
def DEFAULT_BACKOFF_MAX : ℚ := 120

/-- urllib3 `Retry.get_backoff_time` on a history of
`consecutive_errors_len` consecutive (non-redirect) errors: zero up to the
first retry, and `min(DEFAULT_BACKOFF_MAX, backoff_factor * 2^(len-1))`
afterwards. -/
def get_backoff_time (p : RetryPolicy) (consecutive_errors_len : ℕ) : PyFloat :=
  if consecutive_errors_len ≤ 1 then .finite 0
  else pyMin (.finite DEFAULT_BACKOFF_MAX) (p.backoff_factor.mulPow2 (consecutive_errors_len - 1))

/-- Observable trace of one `session.post` through the urllib3 retry loop:
how many HTTP attempts were made, the backoff delay slept before each retry
(`0` = no sleep, per `Retry._sleep_backoff`), and the status of the
response finally handed back. -/
structure RetryRun : Type where
  attempts : ℕ
  sleeps : List PyFloat
  finalStatus : ℕ
  deriving DecidableEq, Repr

/-- One step of the `HTTPConnectionPool.urlopen` retry loop
(connectionpool.py lines 877–887 of urllib3 1.26), for a POST whose
attempt `i` draws status `responses i`.  `total` is the remaining retry
budget; `Retry.increment` decrements it and raises `MaxRetryError` when it
drops below zero, which `raise_on_status=False` turns into returning the
last response.  `fuel` bounds the recursion; the caller supplies
`total.toNat`, which the exhaustion test makes sufficient. -/
def retryLoopAux (p : RetryPolicy) (responses : ℕ → ℕ) :
    ℕ → ℤ → ℕ → RetryRun
  | idx, total, fuel =>
    let status := responses idx
    if p.is_retry "POST" status then
      if total - 1 < 0 then
        { attempts := idx + 1, sleeps := [], finalStatus := status }
      else
        match fuel with
        | 0 => { attempts := idx + 1, sleeps := [], finalStatus := status }
        | fuel' + 1 =>
          let rest := retryLoopAux p responses (idx + 1) (total - 1) fuel'
          { attempts := rest.attempts
            sleeps := get_backoff_time p (idx + 1) :: rest.sleeps
            finalStatus := rest.finalStatus }
    else
      { attempts := idx + 1, sleeps := [], finalStatus := status }

/-- A full `session.post` against a server whose attempt `i` returns status
`responses i`: the retry loop starting with the policy's full budget. -/
def sessionPost (p : RetryPolicy) (responses : ℕ → ℕ) : RetryRun :=
  retryLoopAux p responses 0 p.total p.total.toNat

/-! The model above covers attempts that always produce a response.  The
urlopen loop also retries transport-level failures: a connection error is
caught (connectionpool.py lines 798–801 of urllib3 1.26) and passed to
`Retry.increment(error=...)`, which decrements the same `total` budget
with no method or status test on the connection-error branch (retry.py
lines 540–545) and raises `MaxRetryError` on exhaustion — surfaced by
`requests` as a `ConnectionError`.  The extended model below draws, for
each attempt, either a response status or a connection failure. -/

/-- Outcome of one network attempt inside the retry loop: an HTTP
response with a status, or a transport-level connection failure raised
before a response arrives. -/
inductive AttemptOutcome : Type where
  | response (status : ℕ) : AttemptOutcome
  | connFailure : AttemptOutcome
  deriving DecidableEq, Repr

/-- Whether urllib3's urlopen loop treats an attempt outcome as a retry
trigger for a POST: a connection failure always is (only the budget
limits it), a response is retried iff `Retry.is_retry`. -/
def RetryPolicy.retriesOn (p : RetryPolicy) : AttemptOutcome → Bool
  | .connFailure => true
  | .response s => p.is_retry "POST" s

/-- What `session.post` hands back for a terminal attempt outcome: the
last response (with `raise_on_status=False` this also covers a retryable
status at exhaustion), or the `MaxRetryError` raised when the budget is
exhausted by a connection failure, which `requests` surfaces as a
`ConnectionError`. -/
inductive SessionResult : Type where
  | returned (status : ℕ) : SessionResult
  | maxRetryError : SessionResult
  deriving DecidableEq, Repr

/-- The terminal result produced by an attempt outcome. -/
def resultOf : AttemptOutcome → SessionResult
  | .response s => .returned s
  | .connFailure => .maxRetryError

/-- Observable trace of one `session.post` in the extended model. -/
structure SessionRun : Type where
  attempts : ℕ
  sleeps : List PyFloat
  outcome : SessionResult
  deriving DecidableEq, Repr

/-- One step of the urlopen retry loop in the extended model: attempt
`idx` draws `draws idx`; a retry trigger (retryable status or connection
failure) consumes budget and sleeps the backoff, any other response is
terminal, and an exhausted budget yields the last outcome's result.
`fuel` bounds the recursion exactly as in `retryLoopAux`. -/
def retryLoopFullAux (p : RetryPolicy) (draws : ℕ → AttemptOutcome) :
    ℕ → ℤ → ℕ → SessionRun
  | idx, total, fuel =>
    if p.retriesOn (draws idx) then
      if total - 1 < 0 then
        { attempts := idx + 1, sleeps := [], outcome := resultOf (draws idx) }
      else
        match fuel with
        | 0 => { attempts := idx + 1, sleeps := [], outcome := resultOf (draws idx) }
        | fuel' + 1 =>
          let rest := retryLoopFullAux p draws (idx + 1) (total - 1) fuel'
          { attempts := rest.attempts
            sleeps := get_backoff_time p (idx + 1) :: rest.sleeps
            outcome := rest.outcome }
    else
      { attempts := idx + 1, sleeps := [], outcome := resultOf (draws idx) }

/-- A full `session.post` in the extended model: the retry loop starting
with the policy's full budget, over a server whose attempt `i` produces
`draws i`. -/
def sessionPostFull (p : RetryPolicy) (draws : ℕ → AttemptOutcome) : SessionRun :=
  retryLoopFullAux p draws 0 p.total p.total.toNat

/-! ## transfer.py -/

/-- A JSON value appearing in the request body dict literal of
`transfer_money`. -/
inductive JsonVal : Type where
  | str (s : String) : JsonVal
  | num (f : PyFloat) : JsonVal
  deriving DecidableEq, Repr

/-- A successfully parsed JSON response body (`response.json()`), reduced
to a string-valued dict, which is all the claims inspect. -/
abbrev Payload := List (String × String)

/-- The arguments `transfer_money` passes to `session.post`. -/
structure Request : Type where
  method : String
  url : String
  body : List (String × JsonVal)
  headers : List (String × String)
  timeout : ℤ
  deriving DecidableEq, Repr

/-- The terminal outcome of `session.post` (after the session's internal
retries): a response handed back, or one of the exception classes
`transfer.py` catches.  A response carries its status, its body text
(`response.text`) and `some payload` when `response.json()` parses. -/
inductive NetOutcome : Type where
  | response (status : ℕ) (bodyText : String) (json : Option Payload) : NetOutcome
  | timeoutExc : NetOutcome
  | connectionExc : NetOutcome
  | requestExc (msg : String) : NetOutcome
  | otherExc (exnName msg : String) : NetOutcome
  deriving DecidableEq, Repr

/-- The classification `transfer_money` logs on a failure path, one case
per handler.  `responseParse` is the failure of `response.json()` on a
non-error status; depending on the installed `requests` version it is
caught by the `RequestException` clause (requests ≥ 2.27, where
`JSONDecodeError` derives from it) or by the `ValueError` clause — either
way the call logs, closes the session and returns `None`. -/
inductive ClassifiedError : Type where
  | httpError (status : ℕ) (bodyText : String) : ClassifiedError
  | timeoutErr : ClassifiedError
  | connectionErr : ClassifiedError
  | requestErr (msg : String) : ClassifiedError
  | responseParse : ClassifiedError
  | unexpected (exnName msg : String) : ClassifiedError
  deriving DecidableEq, Repr

/-- Everything observable about one call of `transfer_money`: the
validation `ValueError` that propagates to the caller (if any), the
request handed to `session.post` (if reached), whether a session was
created and whether it was closed before returning, the caller-visible
return value (`none` models Python `None`), and the failure classification
that was logged (if any). -/
structure TransferRun : Type where
  raised : Option ValidationError
  requestSent : Option Request
  sessionCreated : Bool
  sessionClosed : Bool
  result : Option Payload
  logged : Option ClassifiedError
  deriving DecidableEq, Repr

/-- Python truthiness of the optional `jwt_token` argument
(`if jwt_token:`): `None` and the empty string are falsy. -/
def tokenTruthy : Option String → Bool
  | none => false
  | some t => t ≠ ""

/-- The headers dict built in `transfer.py` lines 71–77: the two fixed
headers, plus `Authorization` exactly when `jwt_token` is truthy. -/
def buildHeaders (jwt_token : Option String) : List (String × String) :=
  let base := [("Content-Type", "application/json"),
               ("User-Agent", "MoneyTransferClient/1.0")]
  if tokenTruthy jwt_token then
    base ++ [("Authorization", "Bearer " ++ jwt_token.getD "")]
  else base

/-- Model of `transfer_money` (transfer.py lines 15–133) with an explicit `config`
(the `config=None` default resolves via `TransferConfig.from_environment`,
modelled separately) and the terminal network outcome `net` as an oracle
for what `session.post` does.  Control flow follows the source: the
validation gate raises before any session exists; then the session is
created, the request is posted, `raise_for_status` raises `HTTPError` for
statuses 400–599, a 2xx/3xx body is JSON-parsed, every handler logs a
classification and returns `None`, and the `finally` block closes the
session on every path on which it was created. -/
def transfer_money (from_acc to_acc : String) (amount : PyFloat)
    (config : TransferConfig) (jwt_token : Option String)
    (net : NetOutcome) : TransferRun :=
  match validate_transfer_inputs from_acc to_acc amount with
  | .error e =>
      { raised := some e, requestSent := none, sessionCreated := false
        sessionClosed := false, result := none, logged := none }
  | .ok () =>
      let url := config.api_url ++ "/transfer"
      let req : Request :=
        { method := "POST", url := url
          body := [("fromAccount", .str from_acc), ("toAccount", .str to_acc),
                   ("amount", .num amount)]
          headers := buildHeaders jwt_token
          timeout := config.timeout }
      match net with
      | .response status bodyText json =>
          if 400 ≤ status ∧ status ≤ 599 then
            { raised := none, requestSent := some req, sessionCreated := true
              sessionClosed := true, result := none
              logged := some (.httpError status bodyText) }
          else
            match json with
            | some payload =>
                { raised := none, requestSent := some req
                  sessionCreated := true, sessionClosed := true
                  result := some payload, logged := none }
            | none =>
                { raised := none, requestSent := some req
                  sessionCreated := true, sessionClosed := true
                  result := none, logged := some .responseParse }
      | .timeoutExc =>
          { raised := none, requestSent := some req, sessionCreated := true
            sessionClosed := true, result := none, logged := some .timeoutErr }
      | .connectionExc =>
          { raised := none, requestSent := some req, sessionCreated := true
            sessionClosed := true, result := none, logged := some .connectionErr }
      | .requestExc msg =>
          { raised := none, requestSent := some req, sessionCreated := true
            sessionClosed := true, result := none, logged := some (.requestErr msg) }
      | .otherExc n m =>
          { raised := none, requestSent := some req, sessionCreated := true
            sessionClosed := true, result := none, logged := some (.unexpected n m) }

/-! ## Test fixtures and helper lemmas -/

/-- The configuration with the source defaults (config.py): base URL
`http://localhost:8123`, timeout 30, max_retries 3, backoff_factor 1.0. -/
def defaultCfg : TransferConfig :=
  { api_url := "http://localhost:8123" }

/-- A successful terminal network outcome: `200` with a parseable JSON body
carrying a transaction id. -/
def okNet : NetOutcome :=
  .response 200 "TXN1" (some [("transactionId", "TXN1")])

/-- Python float semantics: `x > 0` implies `x <= 0` is false. -/
theorem gt0_le0_false {f : PyFloat} (h : f.gt0 = true) : f.le0 = false := by
  cases f with
  | finite q =>
      have hq : 0 < q := of_decide_eq_true h
      simpa [PyFloat.le0] using not_le.mpr hq
  | nan => rfl
  | inf => rfl
  | ninf => simp [PyFloat.gt0] at h

/-- Attempt count and outcome of the retry loop when every attempt draws
the same retry-triggering outcome `d`, for a budget of `t` retries matched
by `t` fuel: the loop makes `t + 1` attempts beyond `idx` and hands back
the result of the last draw. -/
theorem retryLoopFullAux_const (p : RetryPolicy) (d : AttemptOutcome)
    (hp : p.retriesOn d = true) :
    ∀ (t idx : ℕ),
      (retryLoopFullAux p (fun _ => d) idx (t : ℤ) t).attempts = idx + t + 1 ∧
      (retryLoopFullAux p (fun _ => d) idx (t : ℤ) t).outcome = resultOf d := by
  intro t
  induction t with
  | zero =>
      intro idx
      simp [retryLoopFullAux, hp]
  | succ n ih =>
      intro idx
      have h1 : ¬ ((n : ℤ) < 0) := by omega
      have h2 : ((n + 1 : ℕ) : ℤ) - 1 = (n : ℤ) := by push_cast; ring
      have := ih (idx + 1)
      simp only [retryLoopFullAux, hp, if_true, h2, h1, if_false, this.1, this.2] at *
      constructor
      · omega
      · trivial

/-- The retry loop always makes at least one attempt beyond `idx`. -/
theorem retryLoopFullAux_attempts_ge (p : RetryPolicy) (draws : ℕ → AttemptOutcome) :
    ∀ (fuel idx : ℕ) (total : ℤ),
      idx + 1 ≤ (retryLoopFullAux p draws idx total fuel).attempts := by
  intro fuel
  induction fuel with
  | zero =>
      intro idx total
      simp only [retryLoopFullAux]
      split
      · split <;> simp
      · simp
  | succ n ih =>
      intro idx total
      simp only [retryLoopFullAux]
      split
      · split
        · simp
        · have := ih (idx + 1) (total - 1)
          simp only []
          omega
      · simp

/-- With at least one retry in the budget, the session makes a second
attempt exactly when the first attempt's outcome is a retry trigger. -/
theorem sessionPostFull_first (p : RetryPolicy) (draws : ℕ → AttemptOutcome)
    (h1 : (1 : ℤ) ≤ p.total) :
    2 ≤ (sessionPostFull p draws).attempts ↔ p.retriesOn (draws 0) = true := by
  obtain ⟨k, hk⟩ : ∃ k, p.total.toNat = k + 1 := ⟨p.total.toNat - 1, by omega⟩
  have hnex : ¬ (p.total - 1 < 0) := by omega
  constructor
  · intro hA
    by_contra hno
    have hfalse : p.retriesOn (draws 0) = false := by
      cases hx : p.retriesOn (draws 0)
      · rfl
      · exact absurd hx hno
    rw [sessionPostFull, hk] at hA
    simp only [retryLoopFullAux, hfalse, Bool.false_eq_true, if_false] at hA
    omega
  · intro htrig
    rw [sessionPostFull, hk]
    simp only [retryLoopFullAux, htrig, if_true, hnex, if_false]
    have := retryLoopFullAux_attempts_ge p draws k (0 + 1) (p.total - 1)
    simpa using this

/-- The retry trigger of the policy built by `create_session_with_retries`,
unfolded: a POST response is retried exactly for the five forcelist
statuses. -/
theorem is_retry_POST_iff (config : TransferConfig) (s : ℕ) :
    (create_session_with_retries config).is_retry "POST" s = true ↔
      (s = 429 ∨ s = 500 ∨ s = 502 ∨ s = 503 ∨ s = 504) := by
  simp [create_session_with_retries, RetryPolicy.is_retry,
        RetryPolicy.is_method_retryable, List.contains]

/-! ## Claim C5 -/

/-- Claim C5: for every amount `<= 0` (Python float comparison),
`validate_transfer_inputs` fails with `InvalidAmount`; and for every
amount `> 0` with two distinct non-empty account identifiers it succeeds
without error. -/
theorem validate_amount_cases :
    (∀ (a b : String) (amount : PyFloat), amount.le0 = true →
        validate_transfer_inputs a b amount = .error .invalidAmount) ∧
    (∀ (a b : String) (amount : PyFloat), amount.gt0 = true →
        a ≠ "" → b ≠ "" → a ≠ b →
        validate_transfer_inputs a b amount = .ok ()) := by
  constructor
  · intro a b amount h
    simp [validate_transfer_inputs, h]
  · intro a b amount h ha hb hab
    simp [validate_transfer_inputs, gt0_le0_false h, ha, hb, hab]

/-- Claim C5 witness: both branches at concrete inputs. -/
theorem validate_amount_cases_witness :
    validate_transfer_inputs "ACC1000" "ACC1001" (.finite (-3)) = .error .invalidAmount ∧
    validate_transfer_inputs "ACC1000" "ACC1001" (.finite 3) = .ok () :=
  ⟨validate_amount_cases.1 "ACC1000" "ACC1001" (.finite (-3)) (by decide),
   validate_amount_cases.2 "ACC1000" "ACC1001" (.finite 3)
     (by decide) (by decide) (by decide) (by decide)⟩

/-! ## Claim C6 -/

/-- Claim C6 counterexample: an account identifier that is blank but not
empty (a single space) passes validation — the claim says it should fail
with `EmptyAccount`, but Python's `not from_acc` is false for `" "`. -/
theorem blank_account_counterexample :
    validate_transfer_inputs " " "ACC1001" (.finite 5) = .ok () := by decide

/-- Claim C6 (amended): for a positive amount, validation fails with
`EmptyAccount` when either account identifier is the empty string
(whitespace-only identifiers are not rejected). -/
theorem empty_account_gate :
    ∀ (a b : String) (amount : PyFloat), amount.gt0 = true →
      (a = "" ∨ b = "") →
      validate_transfer_inputs a b amount = .error .emptyAccount := by
  intro a b amount h hor
  simp [validate_transfer_inputs, gt0_le0_false h, hor]

/-- Claim C6 witness: an empty source account is rejected. -/
theorem empty_account_gate_witness :
    validate_transfer_inputs "" "ACC1001" (.finite 7) = .error .emptyAccount :=
  empty_account_gate "" "ACC1001" (.finite 7) (by decide) (Or.inl rfl)

/-! ## Claim C4 -/

/-- Claim C4 counterexample: with equal non-empty accounts and a
non-positive amount, `transfer_money` raises `InvalidAmount`, not
`SameAccount` — the amount check runs first, so "any amount" is wrong. -/
theorem same_account_nonpositive_counterexample :
    (transfer_money "ACC1" "ACC1" (.finite (-5)) defaultCfg none okNet).raised
        = some .invalidAmount ∧
    (transfer_money "ACC1" "ACC1" (.finite (-5)) defaultCfg none okNet).raised
        ≠ some .sameAccount := by
  constructor <;> decide

/-- Claim C4 (amended): for equal non-empty accounts and any amount that
is not `<= 0`, `transfer_money` raises `SameAccount` eagerly: no request
is issued and no session is created. -/
theorem same_account_gate :
    ∀ (acc : String) (amount : PyFloat) (config : TransferConfig)
      (token : Option String) (net : NetOutcome),
      acc ≠ "" → amount.le0 = false →
      transfer_money acc acc amount config token net
        = { raised := some .sameAccount, requestSent := none,
            sessionCreated := false, sessionClosed := false,
            result := none, logged := none } := by
  intro acc amount config token net hne h
  simp [transfer_money, validate_transfer_inputs, h, hne]

/-- Claim C4 witness: the spec's own scenario `transfer_money("ACC1","ACC1",5.00)`. -/
theorem same_account_gate_witness :
    transfer_money "ACC1" "ACC1" (.finite 5) defaultCfg none okNet
      = { raised := some .sameAccount, requestSent := none,
          sessionCreated := false, sessionClosed := false,
          result := none, logged := none } :=
  same_account_gate "ACC1" (.finite 5) defaultCfg none okNet (by decide) (by decide)

/-! ## Claim C10 -/

/-- Claim C10: `parse_amount` accepts `"nan"` (and `"inf"`) and returns a
non-finite float instead of failing with `MalformedAmount`;
`validate_transfer_inputs` then accepts the NaN amount because
`nan <= 0` is false, so the non-finite amount passes both validation
steps and reaches the network layer in the request body. -/
theorem nonfinite_amount_passes :
    parse_amount "nan" = .ok .nan ∧
    parse_amount "inf" = .ok .inf ∧
    PyFloat.isFinite .nan = false ∧
    PyFloat.nan.le0 = false ∧
    validate_transfer_inputs "ACC1000" "ACC1001" .nan = .ok () ∧
    (transfer_money "ACC1000" "ACC1001" .nan defaultCfg none okNet).requestSent
      = some { method := "POST", url := "http://localhost:8123/transfer",
               body := [("fromAccount", .str "ACC1000"), ("toAccount", .str "ACC1001"),
                        ("amount", .num .nan)],
               headers := [("Content-Type", "application/json"),
                           ("User-Agent", "MoneyTransferClient/1.0")],
               timeout := 30 } := by
  refine ⟨by decide, by decide, by decide, by decide, by decide, by decide⟩

/-! ## Claim C1 -/

/-- Claim C1 counterexample: a terminal `304` (non-2xx, not in the retry
forcelist, below `raise_for_status`'s 400 threshold) whose body parses as
JSON is returned as a *success* payload with nothing logged — not an
`HttpError` failure; and for terminal `404` and `500` responses the
caller-visible return value is the same `None`, so it carries neither the
status nor the body text. -/
theorem transfer_304_succeeds_counterexample :
    (transfer_money "ACC1000" "ACC1001" (.finite 100) defaultCfg none
        (.response 304 "TXN1" (some [("transactionId", "TXN1")]))).result
      = some [("transactionId", "TXN1")] ∧
    (transfer_money "ACC1000" "ACC1001" (.finite 100) defaultCfg none
        (.response 304 "TXN1" (some [("transactionId", "TXN1")]))).logged = none ∧
    (transfer_money "ACC1000" "ACC1001" (.finite 100) defaultCfg none
        (.response 404 "not found" none)).result
      = (transfer_money "ACC1000" "ACC1001" (.finite 100) defaultCfg none
        (.response 500 "server error" none)).result := by
  refine ⟨by decide, by decide, by decide⟩

/-- Claim C1 (amended): for every call that reaches the network and ends
in a terminal 4xx/5xx response (the statuses `raise_for_status` raises
on, including a retryable status after retries are exhausted), the
`HTTPError` handler classifies the failure with the response status and
body text in the log, returns `None` to the caller, and lets no
exception propagate. -/
theorem transfer_4xx_5xx_returns_none_logged :
    ∀ (from_acc to_acc : String) (amount : PyFloat) (config : TransferConfig)
      (token : Option String) (status : ℕ) (bodyText : String) (json : Option Payload),
      validate_transfer_inputs from_acc to_acc amount = .ok () →
      400 ≤ status → status ≤ 599 →
      (transfer_money from_acc to_acc amount config token
          (.response status bodyText json)).result = none ∧
      (transfer_money from_acc to_acc amount config token
          (.response status bodyText json)).logged
        = some (.httpError status bodyText) ∧
      (transfer_money from_acc to_acc amount config token
          (.response status bodyText json)).raised = none := by
  intro from_acc to_acc amount config token status bodyText json hv h1 h2
  simp [transfer_money, hv, h1, h2]

/-- Claim C1 witness: the spec's `404 not found` scenario. -/
theorem transfer_4xx_5xx_witness :
    (transfer_money "ACC1000" "ACC1001" (.finite 100) defaultCfg none
        (.response 404 "not found" none)).result = none ∧
    (transfer_money "ACC1000" "ACC1001" (.finite 100) defaultCfg none
        (.response 404 "not found" none)).logged
      = some (.httpError 404 "not found") ∧
    (transfer_money "ACC1000" "ACC1001" (.finite 100) defaultCfg none
        (.response 404 "not found" none)).raised = none :=
  transfer_4xx_5xx_returns_none_logged "ACC1000" "ACC1001" (.finite 100) defaultCfg
    none 404 "not found" none (by decide) (by decide) (by decide)

/-! ## Claim C7 -/

/-- Claim C7 counterexample: a supplied-but-empty token (`jwt_token=""`)
is falsy in Python, so no `Authorization` header is attached even though
a token was supplied. -/
theorem empty_token_counterexample :
    (transfer_money "ACC1000" "ACC1001" (.finite 100) defaultCfg (some "") okNet).requestSent
      = some { method := "POST", url := "http://localhost:8123/transfer",
               body := [("fromAccount", .str "ACC1000"), ("toAccount", .str "ACC1001"),
                        ("amount", .num (.finite 100))],
               headers := [("Content-Type", "application/json"),
                           ("User-Agent", "MoneyTransferClient/1.0")],
               timeout := 30 } := by decide

/-- Claim C7 (amended): every call that passes validation posts to
`{api_base_url}/transfer` with exactly the body keys `fromAccount`,
`toAccount`, `amount` bound to the call's arguments, the fixed
`Content-Type` and `User-Agent` headers, and `Authorization: Bearer
{token}` exactly when the supplied token is truthy (non-`None` and
non-empty). -/
theorem request_construction :
    ∀ (from_acc to_acc : String) (amount : PyFloat) (config : TransferConfig)
      (token : Option String) (net : NetOutcome),
      validate_transfer_inputs from_acc to_acc amount = .ok () →
      (transfer_money from_acc to_acc amount config token net).requestSent
        = some { method := "POST", url := config.api_url ++ "/transfer",
                 body := [("fromAccount", .str from_acc), ("toAccount", .str to_acc),
                          ("amount", .num amount)],
                 headers := [("Content-Type", "application/json"),
                             ("User-Agent", "MoneyTransferClient/1.0")]
                   ++ (if tokenTruthy token then
                        [("Authorization", "Bearer " ++ token.getD "")] else []),
                 timeout := config.timeout } := by
  intro from_acc to_acc amount config token net hv
  cases net with
  | response status bodyText json =>
      by_cases hs : 400 ≤ status ∧ status ≤ 599
      · simp [transfer_money, hv, hs, buildHeaders]
        split <;> simp
      · cases json <;> simp [transfer_money, hv, hs, buildHeaders] <;> split <;> simp
  | timeoutExc => simp [transfer_money, hv, buildHeaders]; split <;> simp
  | connectionExc => simp [transfer_money, hv, buildHeaders]; split <;> simp
  | requestExc msg => simp [transfer_money, hv, buildHeaders]; split <;> simp
  | otherExc n m => simp [transfer_money, hv, buildHeaders]; split <;> simp

/-- Claim C7 witness: a truthy token yields the `Authorization` header. -/
theorem request_construction_witness :
    (transfer_money "ACC1000" "ACC1001" (.finite 100) defaultCfg (some "tok123") okNet).requestSent
      = some { method := "POST", url := defaultCfg.api_url ++ "/transfer",
               body := [("fromAccount", .str "ACC1000"), ("toAccount", .str "ACC1001"),
                        ("amount", .num (.finite 100))],
               headers := [("Content-Type", "application/json"),
                           ("User-Agent", "MoneyTransferClient/1.0")]
                 ++ (if tokenTruthy (some "tok123") then
                      [("Authorization", "Bearer " ++ (some "tok123").getD "")] else []),
               timeout := defaultCfg.timeout } :=
  request_construction "ACC1000" "ACC1001" (.finite 100) defaultCfg (some "tok123")
    okNet (by decide)

/-! ## Claim C9 -/

/-- Claim C9: on every exit path on which a session was created — success,
each classified failure, and any unexpected exception — the session is
closed before control returns to the caller. -/
theorem session_close_spec :
    ∀ (from_acc to_acc : String) (amount : PyFloat) (config : TransferConfig)
      (token : Option String) (net : NetOutcome),
      (transfer_money from_acc to_acc amount config token net).sessionCreated = true →
      (transfer_money from_acc to_acc amount config token net).sessionClosed = true := by
  intro from_acc to_acc amount config token net h
  cases hv : validate_transfer_inputs from_acc to_acc amount with
  | error e => simp [transfer_money, hv] at h
  | ok u =>
      cases u
      cases net with
      | response status bodyText json =>
          by_cases hs : 400 ≤ status ∧ status ≤ 599
          · simp [transfer_money, hv, hs]
          · cases json <;> simp [transfer_money, hv, hs]
      | timeoutExc => simp [transfer_money, hv]
      | connectionExc => simp [transfer_money, hv]
      | requestExc msg => simp [transfer_money, hv]
      | otherExc n m => simp [transfer_money, hv]

/-- Claim C9 witness: the session is closed even on the catch-all
unexpected-exception path. -/
theorem session_close_spec_witness :
    (transfer_money "ACC1000" "ACC1001" (.finite 100) defaultCfg none
        (.otherExc "RuntimeError" "boom")).sessionClosed = true :=
  session_close_spec "ACC1000" "ACC1001" (.finite 100) defaultCfg none
    (.otherExc "RuntimeError" "boom") (by decide)

/-! ## Claim C2 -/

/-- Claim C2 counterexample: with the default `max_retries = 3` and every
attempt returning 503, the session makes 4 attempts (the initial attempt
plus 3 retries), not `max_retries = 3` as the claim states — urllib3's
`total` counts retries, not attempts. -/
theorem attempts_exceed_max_retries_counterexample :
    defaultCfg.max_retries = 3 ∧
    (sessionPostFull (create_session_with_retries defaultCfg)
        (fun _ => .response 503)).attempts = 4 := by
  refine ⟨by decide, by decide⟩

/-- Claim C2 (amended): a request is retried exactly when the method is
POST and the status is in `{429, 500, 502, 503, 504}`, or a
transport-level connection failure occurs; any other status is terminal
and returned immediately after a single attempt with zero retries; and
when every attempt returns 503 — and likewise when every attempt is a
connection failure — the session gives up only after `max_retries + 1`
total attempts (the initial attempt plus `max_retries` retries),
returning the last 503 response (resp. raising `MaxRetryError`, surfaced
as a `ConnectionError`). -/
theorem retry_policy_spec :
    (∀ (config : TransferConfig) (method : String) (status : ℕ),
        (create_session_with_retries config).is_retry method status
          = ((method == "POST") &&
             (status == 429 || status == 500 || status == 502 ||
              status == 503 || status == 504))) ∧
    (∀ (config : TransferConfig) (draws : ℕ → AttemptOutcome),
        (1 : ℤ) ≤ config.max_retries →
        (2 ≤ (sessionPostFull (create_session_with_retries config) draws).attempts
          ↔ (draws 0 = .connFailure ∨
             ∃ s, draws 0 = .response s ∧
               (s = 429 ∨ s = 500 ∨ s = 502 ∨ s = 503 ∨ s = 504)))) ∧
    (∀ (config : TransferConfig) (draws : ℕ → AttemptOutcome) (s : ℕ),
        draws 0 = .response s →
        (create_session_with_retries config).is_retry "POST" s = false →
        sessionPostFull (create_session_with_retries config) draws
          = { attempts := 1, sleeps := [], outcome := .returned s }) ∧
    (∀ (n : ℕ) (config : TransferConfig), config.max_retries = (n : ℤ) →
        (sessionPostFull (create_session_with_retries config)
            (fun _ => .response 503)).attempts = n + 1 ∧
        (sessionPostFull (create_session_with_retries config)
            (fun _ => .response 503)).outcome = .returned 503) ∧
    (∀ (n : ℕ) (config : TransferConfig), config.max_retries = (n : ℤ) →
        (sessionPostFull (create_session_with_retries config)
            (fun _ => .connFailure)).attempts = n + 1 ∧
        (sessionPostFull (create_session_with_retries config)
            (fun _ => .connFailure)).outcome = .maxRetryError) := by
  refine ⟨?_, ?_, ?_, ?_, ?_⟩
  · intro config method status
    simp only [create_session_with_retries, RetryPolicy.is_retry,
               RetryPolicy.is_method_retryable, List.contains, List.elem]
    cases method == "POST" <;> cases status == 429 <;> cases status == 500 <;>
      cases status == 502 <;> cases status == 503 <;> cases status == 504 <;> rfl
  · intro config draws h1
    have ht : (create_session_with_retries config).total = config.max_retries := rfl
    have hr := sessionPostFull_first (create_session_with_retries config) draws
      (by rw [ht]; exact h1)
    rw [hr]
    cases hd : draws 0 with
    | response s => simp [RetryPolicy.retriesOn, is_retry_POST_iff]
    | connFailure => simp [RetryPolicy.retriesOn]
  · intro config draws s hd h
    have hfalse : (create_session_with_retries config).retriesOn (.response s) = false := by
      simp [RetryPolicy.retriesOn, h]
    cases hf : (create_session_with_retries config).total.toNat <;>
      simp [sessionPostFull, hf, retryLoopFullAux, hd, hfalse, resultOf]
  · intro n config hc
    have hp : (create_session_with_retries config).retriesOn (.response 503) = true := rfl
    have h := retryLoopFullAux_const (create_session_with_retries config)
      (.response 503) hp n 0
    have ht : (create_session_with_retries config).total = (n : ℤ) := hc
    constructor
    · have := h.1
      simp only [ht, Int.toNat_natCast, sessionPostFull] at *
      omega
    · have := h.2
      simp only [ht, Int.toNat_natCast, sessionPostFull] at *
      exact this
  · intro n config hc
    have hp : (create_session_with_retries config).retriesOn .connFailure = true := rfl
    have h := retryLoopFullAux_const (create_session_with_retries config)
      .connFailure hp n 0
    have ht : (create_session_with_retries config).total = (n : ℤ) := hc
    constructor
    · have := h.1
      simp only [ht, Int.toNat_natCast, sessionPostFull] at *
      omega
    · have := h.2
      simp only [ht, Int.toNat_natCast, sessionPostFull] at *
      exact this

/-- Claim C2 witness: a terminal 400 is returned after one attempt; with
`max_retries = 3` an all-503 server and an all-connection-failure
transport are each given up on after 4 attempts; and a first-attempt
connection failure triggers a retry. -/
theorem retry_policy_spec_witness :
    sessionPostFull (create_session_with_retries defaultCfg) (fun _ => .response 400)
      = { attempts := 1, sleeps := [], outcome := .returned 400 } ∧
    (sessionPostFull (create_session_with_retries defaultCfg)
        (fun _ => .response 503)).attempts = 3 + 1 ∧
    (sessionPostFull (create_session_with_retries defaultCfg)
        (fun _ => .connFailure)).attempts = 3 + 1 ∧
    2 ≤ (sessionPostFull (create_session_with_retries defaultCfg)
        (fun _ => .connFailure)).attempts :=
  ⟨retry_policy_spec.2.2.1 defaultCfg (fun _ => .response 400) 400 rfl (by decide),
   (retry_policy_spec.2.2.2.1 3 defaultCfg (by decide)).1,
   (retry_policy_spec.2.2.2.2 3 defaultCfg (by decide)).1,
   (retry_policy_spec.2.1 defaultCfg (fun _ => .connFailure) (by decide)).mpr
     (Or.inl rfl)⟩

/-! ## Claim C3 -/

/-- Claim C3 (code bug): for `backoff_factor = 1.0` and `max_retries = 4`
with every attempt returning 503, the actual delay sequence before giving
up is `[0s, 2s, 4s, 8s]` — urllib3's `Retry.get_backoff_time` returns 0
before the first retry — and not the `[1s, 2s, 4s, 8s]` that the claim
and `create_session_with_retries`'s own docstring state. -/
theorem backoff_delays_concrete :
    (sessionPost (create_session_with_retries
        { api_url := "http://localhost:8123", max_retries := 4,
          backoff_factor := .finite 1 })
        (fun _ => 503)).sleeps
      = [.finite 0, .finite 2, .finite 4, .finite 8] := by decide

/-! ## Claim C8 -/

/-- Claim C8: with every configuration variable unset,
`TransferConfig.from_environment` returns the documented defaults (base
URL `http://localhost:8123`, timeout 30, max_retries 3, backoff_factor
1.0); and it fails — always with `InvalidConfig`, the `ValueError` raised
by `int()`/`float()` — exactly when one of the numeric environment values
is malformed. -/
theorem from_environment_spec :
    TransferConfig.from_environment (fun _ => none)
      = .ok { api_url := "http://localhost:8123", timeout := 30,
              max_retries := 3, backoff_factor := .finite 1 } ∧
    ∀ (env : String → Option String),
      (TransferConfig.from_environment env = .error .invalidConfig
        ↔ (pyIntOfString ((env "TRANSFER_TIMEOUT").getD "30") = none ∨
           pyIntOfString ((env "TRANSFER_MAX_RETRIES").getD "3") = none ∨
           pyFloatOfString ((env "TRANSFER_BACKOFF_FACTOR").getD "1.0") = none)) := by
  constructor
  · decide
  · intro env
    cases h1 : pyIntOfString ((env "TRANSFER_TIMEOUT").getD "30") <;>
    cases h2 : pyIntOfString ((env "TRANSFER_MAX_RETRIES").getD "3") <;>
    cases h3 : pyFloatOfString ((env "TRANSFER_BACKOFF_FACTOR").getD "1.0") <;>
      simp [TransferConfig.from_environment, h1, h2, h3]

/-- Claim C8 witness: a malformed numeric environment value fails with
`InvalidConfig`. -/
theorem from_environment_spec_witness :
    TransferConfig.from_environment
        (fun k => if k = "TRANSFER_TIMEOUT" then some "thirty" else none)
      = .error .invalidConfig :=
  (from_environment_spec.2
      (fun k => if k = "TRANSFER_TIMEOUT" then some "thirty" else none)).mpr
    (Or.inl (by decide))

end JBTransfer
